import Mathlib

/-!
Verification of the HealthPlan Navigator core: a shallow embedding of the
plan data model (`core/models.py`), the six-metric scoring engine
(`core/score.py`), the analysis engine (`analysis/engine.py`), the JSON
export schema (`output/report.py`), and the structured-ingestion paths
(`core/ingest_fixed.py` / `core/ingest.py`).

Python floats are modelled as exact rationals (`ℚ`), Python `int` as `ℤ`,
Python `dict` as association lists with first-match lookup, and fallible
paths (`try`/`except` returning `None`) as `Option`.  `round(x, 2)` is
modelled as round-half-to-even at two decimal places, matching Python's
rounding mode.  The optional `provider_network` / `drug_formulary`
sub-records of a Plan are never read by any of the scoring, analysis,
export or parsing code modelled here and are omitted from the record.
-/

/- The rational-number operations are sealed in the standard library;
unseal them so that concrete witnesses evaluate by `decide` / `rfl`. -/
unseal Rat.add Rat.mul Rat.inv Rat.sub Rat.ofScientific

namespace HPN

/-! ### Enumerations (`core/models.py`) -/

inductive MetalLevel
  | BRONZE | SILVER | GOLD | PLATINUM | CATASTROPHIC
deriving DecidableEq, Repr

inductive PlanType
  | HMO | PPO | EPO | POS | HDHP
deriving DecidableEq, Repr

inductive CoverageStatus
  | COVERED | NOT_COVERED | TIER1 | TIER2 | TIER3 | TIER4
deriving DecidableEq, Repr

inductive Priority
  | MUST_KEEP | NICE_TO_KEEP
deriving DecidableEq, Repr

inductive NetworkStatus
  | IN_NETWORK | OUT_OF_NETWORK
deriving DecidableEq, Repr

/-- The `.value` string of a `CoverageStatus` member. -/
def coverageValue : CoverageStatus → String
  | .COVERED => "COVERED"
  | .NOT_COVERED => "NOT"
  | .TIER1 => "TIER1"
  | .TIER2 => "TIER2"
  | .TIER3 => "TIER3"
  | .TIER4 => "TIER4"

/-- The `.value` string of a `MetalLevel` member. -/
def metalValue : MetalLevel → String
  | .BRONZE => "Bronze"
  | .SILVER => "Silver"
  | .GOLD => "Gold"
  | .PLATINUM => "Platinum"
  | .CATASTROPHIC => "Catastrophic"

/-! ### Client-side data model (`core/models.py`) -/

structure ManufacturerProgram where
  exists_ : Bool
  program_type : Option String := none
  max_benefit : Option ℚ := none
  expected_copay : Option ℚ := none
deriving DecidableEq, Repr

structure Provider where
  name : String
  specialty : String
  npi : Option String := none
  priority : Priority := .NICE_TO_KEEP
  visit_frequency : ℤ := 1
deriving DecidableEq, Repr

structure Medication where
  name : String
  rxnorm_code : Option String := none
  dosage : String := ""
  frequency : String := ""
  annual_doses : ℤ := 1
  manufacturer_program : Option ManufacturerProgram := none
deriving DecidableEq, Repr

structure SpecialTreatment where
  name : String
  frequency : ℤ
  allowed_cost : ℚ
deriving DecidableEq, Repr

structure MedicalProfile where
  providers : List Provider := []
  medications : List Medication := []
  special_treatments : List SpecialTreatment := []
deriving DecidableEq, Repr

structure PersonalInfo where
  full_name : String
  dob : String
  zipcode : String
  household_size : ℤ
  annual_income : ℚ
  csr_eligible : Bool := false
deriving DecidableEq, Repr

structure Priorities where
  keep_providers : ℤ := 3
  minimize_total_cost : ℤ := 3
  predictable_costs : ℤ := 3
  avoid_prior_auth : ℤ := 3
  simple_admin : ℤ := 3
deriving DecidableEq, Repr

structure Client where
  personal : PersonalInfo
  medical_profile : MedicalProfile
  priorities : Priorities
deriving DecidableEq, Repr

/-! ### Plan-side data model (`core/models.py`) -/

structure CostSharing where
  primary_care_copay : ℚ := 0
  specialist_copay : ℚ := 0
  coinsurance_outpatient : ℚ := 0
  emergency_room_copay : ℚ := 0
deriving DecidableEq, Repr

structure Administrative where
  prior_auth_common : Bool := false
  uses_maximizer : Bool := false
  plan_rating : ℚ := 3
deriving DecidableEq, Repr

structure Plan where
  plan_id : String
  issuer : String
  marketing_name : String
  metal_level : MetalLevel
  plan_type : PlanType := .PPO
  monthly_premium : ℚ := 0
  deductible : ℚ := 0
  deductible_individual : Option ℚ := none
  oop_max : ℚ := 0
  oop_max_individual : Option ℚ := none
  copay_primary : ℚ := 0
  copay_specialist : ℚ := 0
  copay_er : ℚ := 0
  coinsurance : ℚ := 1/5
  requires_referrals : Bool := false
  network : List (String × NetworkStatus) := []
  formulary : List (String × CoverageStatus) := []
  cost_sharing : CostSharing := {}
  administrative : Administrative := {}
  quality_rating : ℚ := 0
  customer_rating : ℚ := 0
deriving DecidableEq, Repr

/-- `Plan.__post_init__`: if the legacy individual field is present and the
modern field is still zero, the legacy value wins.  Every Plan construction
site in the source runs this once, so every embedded construction goes
through `mkPlan`. -/
def mkPlan (p : Plan) : Plan :=
  let p :=
    match p.deductible_individual with
    | some d => if p.deductible = 0 then { p with deductible := d } else p
    | none => p
  match p.oop_max_individual with
  | some m => if p.oop_max = 0 then { p with oop_max := m } else p
  | none => p

structure ScoringMetrics where
  provider_network_score : ℚ := 0
  medication_coverage_score : ℚ := 0
  total_cost_score : ℚ := 0
  financial_protection_score : ℚ := 0
  administrative_simplicity_score : ℚ := 0
  plan_quality_score : ℚ := 0
  weighted_total_score : ℚ := 0
deriving DecidableEq, Repr

structure PlanAnalysis where
  plan : Plan
  metrics : ScoringMetrics
  estimated_annual_cost : ℚ
  provider_coverage_details : List (String × Bool) := []
  medication_coverage_details : List (String × String) := []
  notes : List String := []
deriving DecidableEq, Repr

/-- `AnalysisReport` without the wall-clock `generated_at` timestamp (real
time, not modelled). -/
structure AnalysisReport where
  client : Client
  plan_analyses : List PlanAnalysis
  top_recommendations : List PlanAnalysis := []
deriving DecidableEq, Repr

/-! ### Helpers: dict lookup, Python `round`, `min`/`max` over a list -/

/-- Python `str.lower()`, written over the character list (the form the
kernel can evaluate). -/
def strLower (s : String) : String := String.mk (s.data.map Char.toLower)

/-- Python `str.upper()`, written over the character list. -/
def strUpper (s : String) : String := String.mk (s.data.map Char.toUpper)

/-- `d.get(k, default)` on a string-keyed dict, modelled as first-match
lookup in an association list. -/
def lookupD {β : Type} (l : List (String × β)) (k : String) (d : β) : β :=
  match l.find? (fun kv => kv.1 == k) with
  | some kv => kv.2
  | none => d

/-- The floor of a rational, computed on its reduced numerator and
denominator (`Int.fdiv` rounds toward negative infinity, so this is
exactly `⌊x⌋`). -/
def ratFloor (x : ℚ) : ℤ := Int.fdiv x.num (x.den : ℤ)

/-- Round to the nearest integer, ties to even (Python's rounding mode). -/
def roundHalfEven (x : ℚ) : ℤ :=
  let f := ratFloor x
  let r := x - (f : ℚ)
  if r < 1/2 then f
  else if 1/2 < r then f + 1
  else if f % 2 = 0 then f else f + 1

/-- Python `round(x, 2)`. -/
def round2 (x : ℚ) : ℚ := (roundHalfEven (100 * x) : ℚ) / 100

/-- Python `min(list)` for a non-empty list; Python raises `ValueError` on
an empty list, which never occurs at the call sites modelled here (the
analysis engine rejects empty plan sets first), so the `[]` case is dead
code given a default of `0`. -/
def listMin : List ℚ → ℚ
  | [] => 0
  | x :: xs => xs.foldl min x

/-- Python `max(list)`; see `listMin` for the empty case. -/
def listMax : List ℚ → ℚ
  | [] => 0
  | x :: xs => xs.foldl max x

/-! ### Scoring engine (`core/score.py`, class `HealthPlanScorer`) -/

/-- The `score` local of `HealthPlanScorer._score_provider_network` before
the referral penalty: 10 with no must-keep providers, else the step
function of the in-network ratio. -/
def providerNetworkBase (client : Client) (plan : Plan) : ℚ :=
  let must_keep := client.medical_profile.providers.filter
    (fun p => p.priority == Priority.MUST_KEEP)
  if must_keep.isEmpty then 10
  else
    let in_network_count := (must_keep.filter
      (fun p => lookupD plan.network p.name NetworkStatus.OUT_OF_NETWORK
        == NetworkStatus.IN_NETWORK)).length
    let coverage_ratio : ℚ := (in_network_count : ℚ) / (must_keep.length : ℚ)
    if coverage_ratio = 1 then 10
    else if coverage_ratio ≥ 4/5 then 7
    else if coverage_ratio ≥ 1/2 then 4
    else 0

/-- `HealthPlanScorer._score_provider_network`. -/
def scoreProviderNetwork (client : Client) (plan : Plan) : ℚ :=
  if plan.requires_referrals then max 0 (providerNetworkBase client plan - 2)
  else providerNetworkBase client plan

/-- Per-medication coverage value inside
`HealthPlanScorer._score_medication_coverage`: 10 for any covered/tiered
status, 6 for not-covered with an existing manufacturer program, else 0. -/
def medicationScore (plan : Plan) (m : Medication) : ℚ :=
  match lookupD plan.formulary m.name CoverageStatus.NOT_COVERED with
  | .NOT_COVERED =>
      match m.manufacturer_program with
      | some prog => if prog.exists_ then 6 else 0
      | none => 0
  | _ => 10

/-- `HealthPlanScorer._score_medication_coverage`. -/
def scoreMedicationCoverage (client : Client) (plan : Plan) : ℚ :=
  let meds := client.medical_profile.medications
  if meds.isEmpty then 10
  else
    let total_score := meds.foldl (fun acc m => acc + medicationScore plan m) 0
    let base_score := total_score / (meds.length : ℚ)
    let base_score :=
      if !plan.administrative.prior_auth_common then base_score + 2 else base_score
    let base_score :=
      if plan.administrative.uses_maximizer then base_score - 3 else base_score
    max 0 (min 10 base_score)

/-- The recognized primary-care specialties in
`HealthPlanScorer._calculate_annual_cost`. -/
def primaryCareSpecialties : List String :=
  ["primary care", "family medicine", "internal medicine"]

/-- The per-provider visit cost inside
`HealthPlanScorer._calculate_annual_cost`: visit frequency times the
primary-care copay for primary-care specialties, else the specialist copay
(both read from the plan's `cost_sharing` sub-record). -/
def providerVisitCost (plan : Plan) (p : Provider) : ℚ :=
  if primaryCareSpecialties.contains (strLower p.specialty) then
    (p.visit_frequency : ℚ) * plan.cost_sharing.primary_care_copay
  else
    (p.visit_frequency : ℚ) * plan.cost_sharing.specialist_copay

/-- The per-medication cost inside
`HealthPlanScorer._calculate_annual_cost`. -/
def medicationCost (plan : Plan) (m : Medication) : ℚ :=
  match m.manufacturer_program with
  | some prog =>
      if prog.exists_ then
        (m.annual_doses : ℚ) * (prog.expected_copay.getD 0)
      else tierCost plan m
  | none => tierCost plan m
where
  /-- The tier-based estimate: 10/50/100/300 per dose for tiers 1-4, 500
  per dose otherwise. -/
  tierCost (plan : Plan) (m : Medication) : ℚ :=
    match lookupD plan.formulary m.name CoverageStatus.NOT_COVERED with
    | .TIER1 => (m.annual_doses : ℚ) * 10
    | .TIER2 => (m.annual_doses : ℚ) * 50
    | .TIER3 => (m.annual_doses : ℚ) * 100
    | .TIER4 => (m.annual_doses : ℚ) * 300
    | _ => (m.annual_doses : ℚ) * 500

/-- The `visit_costs` accumulation loop of
`HealthPlanScorer._calculate_annual_cost`. -/
def visitCosts (client : Client) (plan : Plan) : ℚ :=
  client.medical_profile.providers.foldl
    (fun acc p => acc + providerVisitCost plan p) 0

/-- The `medication_costs` accumulation loop of
`HealthPlanScorer._calculate_annual_cost`. -/
def medicationCosts (client : Client) (plan : Plan) : ℚ :=
  client.medical_profile.medications.foldl
    (fun acc m => acc + medicationCost plan m) 0

/-- `HealthPlanScorer._calculate_annual_cost`. -/
def calculateAnnualCost (client : Client) (plan : Plan) : ℚ :=
  let annual_premium := plan.monthly_premium * 12
  let visit_costs := visitCosts client plan
  let medication_costs := medicationCosts client plan
  let estimated_unexpected : ℚ := 1000
  let total_cost := annual_premium + plan.deductible + visit_costs +
    medication_costs + estimated_unexpected
  min total_cost (plan.oop_max + annual_premium)

/-- `HealthPlanScorer._score_total_cost`. -/
def scoreTotalCost (estimated_cost : ℚ) (all_plans : List Plan)
    (client : Client) : ℚ :=
  let all_costs := all_plans.map (calculateAnnualCost client)
  let min_cost := listMin all_costs
  let max_cost := listMax all_costs
  if max_cost = min_cost then 10
  else max 0 (min 10 (10 * (max_cost - estimated_cost) / (max_cost - min_cost)))

/-- `HealthPlanScorer._score_financial_protection`. -/
def scoreFinancialProtection (plan : Plan) : ℚ :=
  if plan.deductible ≤ 500 ∧ plan.oop_max ≤ 3000 then 10
  else if plan.deductible ≤ 1000 ∧ plan.oop_max ≤ 5000 then 7
  else if plan.deductible ≤ 2000 ∧ plan.oop_max ≤ 7000 then 4
  else 0

/-- `HealthPlanScorer._score_administrative_simplicity`. -/
def scoreAdministrativeSimplicity (plan : Plan) : ℚ :=
  let score : ℚ := 10
  let score := if plan.requires_referrals then score - 3 else score
  let score := if plan.administrative.prior_auth_common then score - 2 else score
  let score := if plan.administrative.uses_maximizer then score - 2 else score
  let score := if plan.administrative.plan_rating < 3 then score - 1 else score
  max 0 score

/-- `HealthPlanScorer._score_plan_quality`: star rating times 2, capped at
10 (no lower clamp in the source). -/
def scorePlanQuality (plan : Plan) : ℚ :=
  min 10 (plan.administrative.plan_rating * 2)

/-- `HealthPlanScorer._calculate_weighted_score`: dot product of the six
sub-scores with the fixed weight dict, rounded to two decimals. -/
def calculateWeightedScore (m : ScoringMetrics) : ℚ :=
  round2 (m.provider_network_score * 0.30 +
    m.medication_coverage_score * 0.25 +
    m.total_cost_score * 0.20 +
    m.financial_protection_score * 0.10 +
    m.administrative_simplicity_score * 0.10 +
    m.plan_quality_score * 0.05)

/-- `HealthPlanScorer._get_provider_coverage_details`. -/
def providerCoverageDetails (client : Client) (plan : Plan) :
    List (String × Bool) :=
  client.medical_profile.providers.map (fun p =>
    (p.name, lookupD plan.network p.name NetworkStatus.OUT_OF_NETWORK
      == NetworkStatus.IN_NETWORK))

/-- `HealthPlanScorer._get_medication_coverage_details`. -/
def medicationCoverageDetails (client : Client) (plan : Plan) :
    List (String × String) :=
  client.medical_profile.medications.map (fun m =>
    (m.name, coverageValue (lookupD plan.formulary m.name
      CoverageStatus.NOT_COVERED)))

/-- `HealthPlanScorer.score_plan`: computes the six metrics (the cost
metric against the full comparison set), the weighted total, and the
diagnostic detail maps. -/
def scorePlan (client : Client) (plan : Plan) (all_plans : List Plan) :
    PlanAnalysis :=
  let estimated_cost := calculateAnnualCost client plan
  let metrics0 : ScoringMetrics :=
    { provider_network_score := scoreProviderNetwork client plan
      medication_coverage_score := scoreMedicationCoverage client plan
      financial_protection_score := scoreFinancialProtection plan
      administrative_simplicity_score := scoreAdministrativeSimplicity plan
      plan_quality_score := scorePlanQuality plan
      total_cost_score := scoreTotalCost estimated_cost all_plans client }
  let metrics :=
    { metrics0 with weighted_total_score := calculateWeightedScore metrics0 }
  { plan := plan
    metrics := metrics
    estimated_annual_cost := estimated_cost
    provider_coverage_details := providerCoverageDetails client plan
    medication_coverage_details := medicationCoverageDetails client plan }

/-! ### Analysis engine (`analysis/engine.py`, class `AnalysisEngine`) -/

/-- The sort key relation used by `analyze_plans`: descending
`weighted_total_score`.  Python's `list.sort(key=..., reverse=True)` is a
stable descending sort, which coincides with `List.insertionSort` under
this relation (insertions from the right stop at the first earlier element
of greater-or-equal key). -/
def scoreGE (a b : PlanAnalysis) : Prop :=
  b.metrics.weighted_total_score ≤ a.metrics.weighted_total_score

instance : DecidableRel scoreGE := fun a b =>
  inferInstanceAs
    (Decidable (b.metrics.weighted_total_score ≤ a.metrics.weighted_total_score))

instance : IsTotal PlanAnalysis scoreGE :=
  ⟨fun a b => le_total b.metrics.weighted_total_score a.metrics.weighted_total_score⟩

instance : IsTrans PlanAnalysis scoreGE :=
  ⟨fun _ _ _ hab hbc => le_trans hbc hab⟩

/-- `AnalysisEngine.analyze_plans`: raises `ValueError` on an empty plan
list; otherwise scores every plan against the full list, sorts descending
by weighted total score (stable), and takes the first three entries as the
top recommendations. -/
def analyzePlans (client : Client) (plans : List Plan) :
    Except String AnalysisReport :=
  if plans.isEmpty then .error "No plans provided for analysis"
  else
    let plan_analyses := plans.map (fun p => scorePlan client p plans)
    let plan_analyses := plan_analyses.insertionSort scoreGE
    let top_recommendations := plan_analyses.take 3
    .ok { client := client
          plan_analyses := plan_analyses
          top_recommendations := top_recommendations }

/-! ### Structured ingestion (`core/ingest_fixed.py` /  `core/ingest.py`,
class `DocumentParser`) -/

/-- One decimal digit. -/
def digitVal (c : Char) : Option ℕ :=
  if c.isDigit then some (c.toNat - 48) else none

/-- A non-empty all-digit run, as a natural number. -/
def parseNatDigits : List Char → Option ℕ
  | [] => none
  | cs => cs.foldl (fun acc c => do pure ((← acc) * 10 + (← digitVal c))) (some 0)

/-- Python `float(s)` restricted to the plain decimal forms the modelled
paths produce and consume: optional sign, a digit run, an optional point
followed by a digit run (either run may be empty, not both).  Any other
string raises in Python, i.e. yields `none` here. -/
def parseFloat (s : String) : Option ℚ := do
  let cs := s.data
  let (sign, cs) : ℚ × List Char :=
    match cs with
    | '-' :: rest => (-1, rest)
    | '+' :: rest => (1, rest)
    | _ => (1, cs)
  let intPart := cs.takeWhile (fun c => c ≠ '.')
  let rest := cs.dropWhile (fun c => c ≠ '.')
  match rest with
  | [] => do
      let n ← parseNatDigits intPart
      pure (sign * (n : ℚ))
  | _ :: frac => do
      if intPart.isEmpty && frac.isEmpty then none
      else if !(intPart.all Char.isDigit) || !(frac.all Char.isDigit) then none
      else
        let n : ℕ := intPart.foldl (fun acc c => acc * 10 + (c.toNat - 48)) 0
        let f : ℕ := frac.foldl (fun acc c => acc * 10 + (c.toNat - 48)) 0
        pure (sign * ((n : ℚ) + (f : ℚ) / ((10 : ℚ) ^ frac.length)))

/-- `DocumentParser.metal_level_mapping.get(s, MetalLevel.SILVER)` applied
to an already-lowercased string. -/
def metalFromString (s : String) : MetalLevel :=
  if s = "bronze" then .BRONZE
  else if s = "silver" then .SILVER
  else if s = "gold" then .GOLD
  else if s = "platinum" then .PLATINUM
  else if s = "catastrophic" then .CATASTROPHIC
  else .SILVER

/-- `PlanType[name]`: a `KeyError` (here `none`) for unknown names. -/
def planTypeFromName (s : String) : Option PlanType :=
  if s = "HMO" then some .HMO
  else if s = "PPO" then some .PPO
  else if s = "EPO" then some .EPO
  else if s = "POS" then some .POS
  else if s = "HDHP" then some .HDHP
  else none

/-! #### Text extraction of administrative flags
(`DocumentParser._extract_administrative_details`, identical in
`ingest.py` and `ingest_fixed.py`) -/

/-- Whether `pat` occurs as a contiguous substring of `s`. -/
def hasSub (pat : List Char) : List Char → Bool
  | [] => pat.isEmpty
  | c :: cs => pat.isPrefixOf (c :: cs) || hasSub pat cs

/-- `re.search(r"referral.*(required|needed)", text)` on an
already-lowercased character list: some occurrence of `referral` followed
(at or after its end) by `required` or `needed`. -/
def referralPatternMatch : List Char → Bool
  | [] => false
  | c :: cs =>
      ("referral".data.isPrefixOf (c :: cs) &&
        (hasSub "required".data ((c :: cs).drop 8) ||
         hasSub "needed".data ((c :: cs).drop 8))) ||
      referralPatternMatch cs

/-- `DocumentParser._extract_administrative_details`: BOTH the
referral-requirements pattern and the prior-auth pattern set
`prior_auth_common` (the `Administrative` record has no referral field and
the produced Plan's `requires_referrals` is never assigned by this path);
the plan rating is fixed at 3.5. -/
def extractAdministrativeDetails (text : String) : Administrative :=
  let lowered := text.data.map Char.toLower
  let administrative : Administrative := {}
  let administrative :=
    if referralPatternMatch lowered then
      { administrative with prior_auth_common := true }
    else administrative
  let administrative :=
    if hasSub "prior auth".data lowered then
      { administrative with prior_auth_common := true }
    else administrative
  { administrative with plan_rating := 3.5 }

/-- The Plan construction at the end of
`DocumentParser._extract_plan_from_text` (`ingest_fixed.py` lines
158-168), with the independently extracted non-administrative fields
passed as parameters: the administrative record comes from
`_extract_administrative_details` and `requires_referrals` is left at its
dataclass default `False`. -/
def extractPlanFromText (plan_id issuer marketing_name : String)
    (metal_level : MetalLevel) (monthly_premium deductible oop_max : ℚ)
    (cost_sharing : CostSharing) (text : String) : Plan :=
  mkPlan
    { plan_id := plan_id
      issuer := issuer
      marketing_name := marketing_name
      metal_level := metal_level
      monthly_premium := monthly_premium
      deductible_individual := some deductible
      oop_max_individual := some oop_max
      cost_sharing := cost_sharing
      administrative := extractAdministrativeDetails text }

/-! #### JSON ingestion (`DocumentParser._json_to_plan`) -/

/-- A JSON number-or-null value as read for a numeric Plan field (string
values, which Python's `float` would also coerce, do not occur in the
modelled inputs). -/
abbrev JNum := Option ℚ

/-- The keyword dict for `CostSharing(**d)`: each recognized key optional,
missing keys fall back to the dataclass defaults. -/
structure CostSharingDict where
  primary_care_copay : Option ℚ := none
  specialist_copay : Option ℚ := none
  coinsurance_outpatient : Option ℚ := none
  emergency_room_copay : Option ℚ := none
deriving DecidableEq, Repr

def costSharingFromDict (d : CostSharingDict) : CostSharing :=
  { primary_care_copay := d.primary_care_copay.getD 0
    specialist_copay := d.specialist_copay.getD 0
    coinsurance_outpatient := d.coinsurance_outpatient.getD 0
    emergency_room_copay := d.emergency_room_copay.getD 0 }

/-- The keyword dict for `Administrative(**d)`. -/
structure AdministrativeDict where
  prior_auth_common : Option Bool := none
  uses_maximizer : Option Bool := none
  plan_rating : Option ℚ := none
deriving DecidableEq, Repr

def administrativeFromDict (d : AdministrativeDict) : Administrative :=
  { prior_auth_common := d.prior_auth_common.getD false
    uses_maximizer := d.uses_maximizer.getD false
    plan_rating := d.plan_rating.getD 3 }

/-- The JSON object consumed by `_json_to_plan`, restricted to the keys the
function reads.  An outer `none` models an absent key; for numeric fields
the inner `none` models a JSON `null`, on which Python's `float(None)`
raises `TypeError` (caught by `parse_json`, which then returns `None`). -/
structure JsonPlanData where
  plan_id : Option String := none
  issuer : Option String := none
  marketing_name : Option String := none
  metal_level : Option String := none
  plan_type : Option String := none
  monthly_premium : Option JNum := none
  deductible : Option JNum := none
  deductible_individual : Option JNum := none
  oop_max : Option JNum := none
  oop_max_individual : Option JNum := none
  copay_primary : Option JNum := none
  copay_specialist : Option JNum := none
  copay_er : Option JNum := none
  coinsurance : Option JNum := none
  requires_referrals : Option Bool := none
  cost_sharing : Option CostSharingDict := none
  administrative : Option AdministrativeDict := none
  quality_rating : Option JNum := none
  customer_rating : Option JNum := none
deriving DecidableEq, Repr

/-- `float(data.get(key, default))` for a numeric key: an absent key yields
the numeric default, a present `null` raises (`none`). -/
def jsonNum (v : Option JNum) (default : ℚ) : Option ℚ :=
  match v with
  | none => some default
  | some n => n

/-- `float(data.get(primary, data.get(legacy, 0)))`: the two-generation
field-name fallback used for the deductible and the out-of-pocket max. -/
def jsonNum2 (primary legacy : Option JNum) : Option ℚ :=
  match primary with
  | some n => n
  | none => jsonNum legacy 0

/-- `PlanType[d.get('plan_type', 'PPO').upper()] if d.get('plan_type')
else PlanType.PPO`: an absent or empty (falsy) value defaults to PPO, an
unknown name raises `KeyError` (`none`). -/
def pythonPlanType (v : Option String) : Option PlanType :=
  match v with
  | some s => if s = "" then some PlanType.PPO else planTypeFromName (strUpper s)
  | none => some PlanType.PPO

/-- `DocumentParser._json_to_plan` (identical in `ingest.py` and
`ingest_fixed.py`); any raised coercion error is caught by `parse_json`
and surfaces as `none`. -/
def jsonToPlan (data : JsonPlanData) : Option Plan := do
  let deductible ← jsonNum2 data.deductible data.deductible_individual
  let oop_max ← jsonNum2 data.oop_max data.oop_max_individual
  let monthly_premium ← jsonNum data.monthly_premium 0
  let copay_primary ← jsonNum data.copay_primary 0
  let copay_specialist ← jsonNum data.copay_specialist 0
  let copay_er ← jsonNum data.copay_er 0
  let coinsurance ← jsonNum data.coinsurance (1/5)
  let quality_rating ← jsonNum data.quality_rating 0
  let customer_rating ← jsonNum data.customer_rating 0
  let plan_type ← pythonPlanType data.plan_type
  pure (mkPlan
    { plan_id := data.plan_id.getD ""
      issuer := data.issuer.getD ""
      marketing_name := data.marketing_name.getD ""
      metal_level := metalFromString (strLower (data.metal_level.getD ""))
      plan_type := plan_type
      monthly_premium := monthly_premium
      deductible := deductible
      oop_max := oop_max
      copay_primary := copay_primary
      copay_specialist := copay_specialist
      copay_er := copay_er
      coinsurance := coinsurance
      requires_referrals := data.requires_referrals.getD false
      cost_sharing := costSharingFromDict (data.cost_sharing.getD {})
      administrative := administrativeFromDict (data.administrative.getD {})
      quality_rating := quality_rating
      customer_rating := customer_rating })

/-! #### CSV ingestion (`DocumentParser._csv_row_to_plan`) -/

/-- A CSV row restricted to the columns `_csv_row_to_plan` reads; every
cell, when present, is a string. -/
structure CsvRow where
  plan_id : Option String := none
  issuer : Option String := none
  marketing_name : Option String := none
  metal_level : Option String := none
  plan_type : Option String := none
  monthly_premium : Option String := none
  deductible : Option String := none
  deductible_individual : Option String := none
  oop_max : Option String := none
  oop_max_individual : Option String := none
  copay_primary : Option String := none
  copay_specialist : Option String := none
  copay_er : Option String := none
  coinsurance : Option String := none
  requires_referrals : Option String := none
  quality_rating : Option String := none
  customer_rating : Option String := none
deriving DecidableEq, Repr

/-- `float(row.get(key, 0))` for a CSV cell. -/
def csvNum (v : Option String) : Option ℚ :=
  match v with
  | none => some 0
  | some s => parseFloat s

/-- `float(row.get(primary, row.get(legacy, 0)))`. -/
def csvNum2 (primary legacy : Option String) : Option ℚ :=
  match primary with
  | some s => parseFloat s
  | none => csvNum legacy

/-- `float(row.get('coinsurance', 0.2))`. -/
def csvCoinsurance (v : Option String) : Option ℚ :=
  match v with
  | none => some (1/5 : ℚ)
  | some s => parseFloat s

/-- `DocumentParser._csv_row_to_plan`: conversion failures are caught and
logged, yielding `none` (the row is skipped).  Note that neither
`cost_sharing` nor `administrative` nor the network/formulary dicts are
populated: they keep their dataclass defaults. -/
def csvRowToPlan (row : CsvRow) : Option Plan := do
  let deductible ← csvNum2 row.deductible row.deductible_individual
  let oop_max ← csvNum2 row.oop_max row.oop_max_individual
  let monthly_premium ← csvNum row.monthly_premium
  let copay_primary ← csvNum row.copay_primary
  let copay_specialist ← csvNum row.copay_specialist
  let copay_er ← csvNum row.copay_er
  let coinsurance ← csvCoinsurance row.coinsurance
  let quality_rating ← csvNum row.quality_rating
  let customer_rating ← csvNum row.customer_rating
  let plan_type ← pythonPlanType row.plan_type
  pure (mkPlan
    { plan_id := row.plan_id.getD ""
      issuer := row.issuer.getD ""
      marketing_name := row.marketing_name.getD ""
      metal_level := metalFromString (strLower (row.metal_level.getD ""))
      plan_type := plan_type
      monthly_premium := monthly_premium
      deductible := deductible
      oop_max := oop_max
      copay_primary := copay_primary
      copay_specialist := copay_specialist
      copay_er := copay_er
      coinsurance := coinsurance
      requires_referrals := strLower (row.requires_referrals.getD "") = "true"
      quality_rating := quality_rating
      customer_rating := customer_rating })

/-! #### JSON export (`output/report.py`,
`ReportGenerator.generate_json_export`) -/

/-- The per-plan object written by the JSON export, expressed over the
`_json_to_plan` input schema: exactly the keys `plan_id`, `issuer`,
`marketing_name`, `metal_level`, `monthly_premium`,
`deductible_individual` and `oop_max_individual` are present (the last two
holding the plan's legacy optional fields, `null` when those are `None`);
every other key is absent. -/
def exportPlanJson (p : Plan) : JsonPlanData :=
  { plan_id := some p.plan_id
    issuer := some p.issuer
    marketing_name := some p.marketing_name
    metal_level := some (metalValue p.metal_level)
    monthly_premium := some (some p.monthly_premium)
    deductible_individual := some p.deductible_individual
    oop_max_individual := some p.oop_max_individual }

/-! ### Specification-side definitions

These two definitions follow the wording of the specification (section
4.4) rather than the source, to be compared with the source-translated
`calculateAnnualCost` and `scoreProviderNetwork`. -/

/-- Whether a medication has an existing manufacturer assistance
program. -/
def programExists (m : Medication) : Bool :=
  match m.manufacturer_program with
  | some prog => prog.exists_
  | none => false

/-- The expected manufacturer-program copay of a medication (0 when the
program records no copay). -/
def programCopay (m : Medication) : ℚ :=
  (m.manufacturer_program.bind (fun prog => prog.expected_copay)).getD 0

/-- The annual cost estimate in the specification's words:
`annual_premium + deductible + visit_costs + medication_costs + 1000`,
capped at `oop_max + annual_premium`, where `visit_costs` sums per
provider `visit_frequency` times the primary-care copay for recognized
primary-care specialties and the specialist copay otherwise, and
`medication_costs` sums per medication `annual_doses` times the
manufacturer-program expected copay when a program exists, else
`annual_doses` times 10/50/100/300 for formulary tiers 1-4, else
`annual_doses` times 500. -/
def annualCostSpec (client : Client) (plan : Plan) : ℚ :=
  let annual_premium := plan.monthly_premium * 12
  let visit_costs := (client.medical_profile.providers.map (fun pr =>
    if primaryCareSpecialties.contains (strLower pr.specialty) then
      (pr.visit_frequency : ℚ) * plan.cost_sharing.primary_care_copay
    else
      (pr.visit_frequency : ℚ) * plan.cost_sharing.specialist_copay)).sum
  let medication_costs := (client.medical_profile.medications.map (fun m =>
    if programExists m then (m.annual_doses : ℚ) * programCopay m
    else
      match lookupD plan.formulary m.name CoverageStatus.NOT_COVERED with
      | .TIER1 => (m.annual_doses : ℚ) * 10
      | .TIER2 => (m.annual_doses : ℚ) * 50
      | .TIER3 => (m.annual_doses : ℚ) * 100
      | .TIER4 => (m.annual_doses : ℚ) * 300
      | _ => (m.annual_doses : ℚ) * 500)).sum
  min (annual_premium + plan.deductible + visit_costs + medication_costs + 1000)
    (plan.oop_max + annual_premium)

/-- The provider-network metric in the specification's words: 10 with no
must-keep providers, else the step function of the in-network fraction
(1 gives 10, at least 4/5 gives 7, at least 1/2 gives 4, else 0), and in
either case a flat 2-point penalty when the plan requires referrals,
floored at 0. -/
def providerNetworkScoreSpec (client : Client) (plan : Plan) : ℚ :=
  let must_keep := client.medical_profile.providers.filter
    (fun p => p.priority == Priority.MUST_KEEP)
  let fraction : ℚ :=
    (must_keep.countP (fun p =>
      lookupD plan.network p.name NetworkStatus.OUT_OF_NETWORK
        == NetworkStatus.IN_NETWORK) : ℚ) / (must_keep.length : ℚ)
  let base : ℚ :=
    if must_keep.isEmpty then 10
    else if fraction = 1 then 10
    else if fraction ≥ 4/5 then 7
    else if fraction ≥ 1/2 then 4
    else 0
  if plan.requires_referrals then max 0 (base - 2) else base

/-! ### Sample inputs used by witnesses and counterexamples -/

/-- A client with an empty medical profile. -/
def sampleClient : Client :=
  { personal := { full_name := "Jordan Doe", dob := "1990-01-01",
                  zipcode := "85001", household_size := 1,
                  annual_income := 40000 }
    medical_profile := {}
    priorities := {} }

/-- The spec section 8 scenario plan: premium 500, deductible 2000,
out-of-pocket max 8000. -/
def samplePlan : Plan := mkPlan
  { plan_id := "S1", issuer := "Acme", marketing_name := "Acme Silver",
    metal_level := .SILVER, monthly_premium := 500, deductible := 2000,
    oop_max := 8000 }

/-- A cheaper second plan for two-plan comparison sets. -/
def samplePlanB : Plan := mkPlan
  { plan_id := "S2", issuer := "Acme", marketing_name := "Acme Bronze",
    metal_level := .BRONZE, monthly_premium := 200, deductible := 7000,
    oop_max := 8700 }

/-- A plan whose legacy individual fields are populated (as the
text-extraction path produces). -/
def samplePlanLegacy : Plan := mkPlan
  { plan_id := "S3", issuer := "Acme", marketing_name := "Acme Gold",
    metal_level := .GOLD, monthly_premium := 100,
    deductible_individual := some 2000, oop_max_individual := some 6000 }

/-- A JSON object carrying a negative administrative `plan_rating`; the
ingestion path performs no validation of the rating. -/
def negRatingJson : JsonPlanData :=
  { plan_id := some "NR1", issuer := some "Acme",
    marketing_name := some "Acme Negative", metal_level := some "Gold",
    monthly_premium := some (some 100), deductible := some (some 1000),
    oop_max := some (some 5000),
    administrative := some { plan_rating := some (-1) } }

/-- The plan `_json_to_plan` builds from `negRatingJson`. -/
def negRatingPlan : Plan :=
  { plan_id := "NR1", issuer := "Acme", marketing_name := "Acme Negative",
    metal_level := .GOLD, monthly_premium := 100, deductible := 1000,
    oop_max := 5000,
    administrative := { plan_rating := -1 } }

/-- A plan whose legacy individual fields are `None`, as every plan built
by the JSON or CSV ingestion path is. -/
def roundTripCexPlan : Plan := mkPlan
  { plan_id := "RT1", issuer := "Acme", marketing_name := "Acme RT",
    metal_level := .SILVER, monthly_premium := 100, deductible := 1500,
    oop_max := 5000 }

/-- A free-text blob matching the referral pattern but not the prior-auth
pattern. -/
def referralText : String := "Specialist referral required for all visits"

/-- A CSV row that supplies copay columns. -/
def sampleCsvRow : CsvRow :=
  { plan_id := some "CSV1", issuer := some "Acme",
    marketing_name := some "Acme CSV", metal_level := some "Bronze",
    monthly_premium := some "200", deductible := some "1000",
    oop_max := some "4000", copay_primary := some "30",
    copay_specialist := some "60" }

/-- The plan `_csv_row_to_plan` builds from `sampleCsvRow`. -/
def sampleCsvPlan : Plan :=
  { plan_id := "CSV1", issuer := "Acme", marketing_name := "Acme CSV",
    metal_level := .BRONZE, monthly_premium := 200, deductible := 1000,
    oop_max := 4000, copay_primary := 30, copay_specialist := 60 }

/-! ### Helper lemmas -/

theorem foldl_add_map {α : Type} (f : α → ℚ) (l : List α) (a : ℚ) :
    l.foldl (fun acc x => acc + f x) a = a + (l.map f).sum := by
  induction l generalizing a with
  | nil => simp
  | cons x xs ih => simp [ih, add_assoc]

theorem mkPlan_cost_sharing (p : Plan) :
    (mkPlan p).cost_sharing = p.cost_sharing := by
  unfold mkPlan
  rcases h1 : p.deductible_individual with _ | d <;>
    rcases h2 : p.oop_max_individual with _ | m <;>
      simp only [h1, h2] <;> (try split_ifs) <;> simp_all

theorem medicationCost_eq (plan : Plan) (m : Medication) :
    medicationCost plan m =
      if programExists m then (m.annual_doses : ℚ) * programCopay m
      else
        match lookupD plan.formulary m.name CoverageStatus.NOT_COVERED with
        | .TIER1 => (m.annual_doses : ℚ) * 10
        | .TIER2 => (m.annual_doses : ℚ) * 50
        | .TIER3 => (m.annual_doses : ℚ) * 100
        | .TIER4 => (m.annual_doses : ℚ) * 300
        | _ => (m.annual_doses : ℚ) * 500 := by
  unfold medicationCost medicationCost.tierCost programExists programCopay
  rcases m.manufacturer_program with _ | prog
  · rfl
  · rcases h : prog.exists_ <;> simp [h]

theorem foldl_min_le_init (l : List ℚ) (a : ℚ) : l.foldl min a ≤ a := by
  induction l generalizing a with
  | nil => simp
  | cons x xs ih => exact le_trans (ih (min a x)) (min_le_left a x)

theorem foldl_min_le_mem :
    ∀ (l : List ℚ) (a x : ℚ), x ∈ l → l.foldl min a ≤ x
  | y :: ys, a, x, h => by
      rcases List.mem_cons.mp h with rfl | hy
      · exact le_trans (foldl_min_le_init ys (min a x)) (min_le_right a x)
      · exact foldl_min_le_mem ys (min a y) x hy

theorem listMin_le_of_mem {l : List ℚ} {x : ℚ} (h : x ∈ l) : listMin l ≤ x := by
  cases l with
  | nil => cases h
  | cons y ys =>
      rcases List.mem_cons.mp h with rfl | hy
      · exact foldl_min_le_init ys x
      · exact foldl_min_le_mem ys y x hy

theorem init_le_foldl_max (l : List ℚ) (a : ℚ) : a ≤ l.foldl max a := by
  induction l generalizing a with
  | nil => simp
  | cons x xs ih => exact le_trans (le_max_left a x) (ih (max a x))

theorem mem_le_foldl_max :
    ∀ (l : List ℚ) (a x : ℚ), x ∈ l → x ≤ l.foldl max a
  | y :: ys, a, x, h => by
      rcases List.mem_cons.mp h with rfl | hy
      · exact le_trans (le_max_right a x) (init_le_foldl_max ys (max a x))
      · exact mem_le_foldl_max ys (max a y) x hy

theorem le_listMax_of_mem {l : List ℚ} {x : ℚ} (h : x ∈ l) : x ≤ listMax l := by
  cases l with
  | nil => cases h
  | cons y ys =>
      rcases List.mem_cons.mp h with rfl | hy
      · exact init_le_foldl_max ys x
      · exact mem_le_foldl_max ys y x hy

theorem foldl_min_all_eq :
    ∀ (l : List ℚ) (c : ℚ), (∀ y ∈ l, y = c) → l.foldl min c = c
  | [], _, _ => rfl
  | y :: ys, c, h => by
      have hy : y = c := h y (List.mem_cons_self _ _)
      rw [List.foldl_cons, hy, min_self]
      exact foldl_min_all_eq ys c (fun z hz => h z (List.mem_cons_of_mem _ hz))

theorem listMin_all_eq {l : List ℚ} {c : ℚ} (hne : l ≠ [])
    (h : ∀ y ∈ l, y = c) : listMin l = c := by
  cases l with
  | nil => exact absurd rfl hne
  | cons z zs =>
      have hz : z = c := h z (List.mem_cons_self _ _)
      show zs.foldl min z = c
      rw [hz]
      exact foldl_min_all_eq zs c (fun y hy => h y (List.mem_cons_of_mem _ hy))

theorem foldl_max_all_eq :
    ∀ (l : List ℚ) (c : ℚ), (∀ y ∈ l, y = c) → l.foldl max c = c
  | [], _, _ => rfl
  | y :: ys, c, h => by
      have hy : y = c := h y (List.mem_cons_self _ _)
      rw [List.foldl_cons, hy, max_self]
      exact foldl_max_all_eq ys c (fun z hz => h z (List.mem_cons_of_mem _ hz))

theorem listMax_all_eq {l : List ℚ} {c : ℚ} (hne : l ≠ [])
    (h : ∀ y ∈ l, y = c) : listMax l = c := by
  cases l with
  | nil => exact absurd rfl hne
  | cons z zs =>
      have hz : z = c := h z (List.mem_cons_self _ _)
      show zs.foldl max z = c
      rw [hz]
      exact foldl_max_all_eq zs c (fun y hy => h y (List.mem_cons_of_mem _ hy))

/-! #### Bounds of the individual metrics -/

theorem providerNetworkBase_bounds (client : Client) (plan : Plan) :
    0 ≤ providerNetworkBase client plan ∧ providerNetworkBase client plan ≤ 10 := by
  unfold providerNetworkBase
  dsimp only
  split_ifs <;> norm_num

theorem scoreProviderNetwork_bounds (client : Client) (plan : Plan) :
    0 ≤ scoreProviderNetwork client plan ∧ scoreProviderNetwork client plan ≤ 10 := by
  have hb := providerNetworkBase_bounds client plan
  unfold scoreProviderNetwork
  split_ifs
  · exact ⟨le_max_left _ _, max_le (by norm_num) (by linarith [hb.2])⟩
  · exact hb

theorem scoreMedicationCoverage_bounds (client : Client) (plan : Plan) :
    0 ≤ scoreMedicationCoverage client plan ∧
      scoreMedicationCoverage client plan ≤ 10 := by
  unfold scoreMedicationCoverage
  dsimp only
  split_ifs
  all_goals exact ⟨by norm_num, by norm_num⟩

theorem scoreTotalCost_bounds (estimated_cost : ℚ) (all_plans : List Plan)
    (client : Client) :
    0 ≤ scoreTotalCost estimated_cost all_plans client ∧
      scoreTotalCost estimated_cost all_plans client ≤ 10 := by
  unfold scoreTotalCost
  dsimp only
  split_ifs
  · norm_num
  · exact ⟨le_max_left _ _, max_le (by norm_num) (min_le_left _ _)⟩

theorem scoreFinancialProtection_bounds (plan : Plan) :
    0 ≤ scoreFinancialProtection plan ∧ scoreFinancialProtection plan ≤ 10 := by
  unfold scoreFinancialProtection
  split_ifs <;> norm_num

theorem scoreAdministrativeSimplicity_bounds (plan : Plan) :
    0 ≤ scoreAdministrativeSimplicity plan ∧
      scoreAdministrativeSimplicity plan ≤ 10 := by
  unfold scoreAdministrativeSimplicity
  split_ifs <;>
    exact ⟨le_max_left _ _, max_le (by norm_num) (by norm_num)⟩

theorem scorePlanQuality_bounds (plan : Plan)
    (hrating : 0 ≤ plan.administrative.plan_rating) :
    0 ≤ scorePlanQuality plan ∧ scorePlanQuality plan ≤ 10 := by
  unfold scorePlanQuality
  exact ⟨le_min (by norm_num) (by linarith), min_le_left _ _⟩

/-! ### Claim theorems -/

/-- C1: for every client, plan and non-empty comparison set, the
`weighted_total_score` produced by `score_plan` equals the dot product of
the six sub-scores with the fixed weight vector
{0.30, 0.25, 0.20, 0.10, 0.10, 0.05}, rounded to 2 decimal places. -/
theorem weighted_total_is_dot_product (client : Client) (plan : Plan)
    (all_plans : List Plan) (_h : all_plans ≠ []) :
    (scorePlan client plan all_plans).metrics.weighted_total_score =
      round2
        ((scorePlan client plan all_plans).metrics.provider_network_score * 0.30 +
         (scorePlan client plan all_plans).metrics.medication_coverage_score * 0.25 +
         (scorePlan client plan all_plans).metrics.total_cost_score * 0.20 +
         (scorePlan client plan all_plans).metrics.financial_protection_score * 0.10 +
         (scorePlan client plan all_plans).metrics.administrative_simplicity_score * 0.10 +
         (scorePlan client plan all_plans).metrics.plan_quality_score * 0.05) :=
  rfl

/-- Witness for C1 at the spec scenario plan compared alone. -/
theorem weighted_total_is_dot_product_witness :
    (scorePlan sampleClient samplePlan [samplePlan]).metrics.weighted_total_score =
      round2
        ((scorePlan sampleClient samplePlan [samplePlan]).metrics.provider_network_score * 0.30 +
         (scorePlan sampleClient samplePlan [samplePlan]).metrics.medication_coverage_score * 0.25 +
         (scorePlan sampleClient samplePlan [samplePlan]).metrics.total_cost_score * 0.20 +
         (scorePlan sampleClient samplePlan [samplePlan]).metrics.financial_protection_score * 0.10 +
         (scorePlan sampleClient samplePlan [samplePlan]).metrics.administrative_simplicity_score * 0.10 +
         (scorePlan sampleClient samplePlan [samplePlan]).metrics.plan_quality_score * 0.05) :=
  weighted_total_is_dot_product sampleClient samplePlan [samplePlan]
    (List.cons_ne_nil _ _)

/-- C2 counterexample: the JSON ingestion path accepts a negative
administrative `plan_rating` without validation, and the resulting plan's
plan-quality sub-score (star rating times 2, capped at 10 but not floored
at 0) is negative, so not every sub-score of a constructible plan lies in
[0, 10]. -/
theorem plan_quality_below_zero_counterexample :
    jsonToPlan negRatingJson = some negRatingPlan ∧
    (scorePlan sampleClient negRatingPlan [negRatingPlan]).metrics.plan_quality_score
      < 0 := by
  constructor
  · rfl
  · decide

/-- C2 (amended): for every client, plan and non-empty comparison set,
if the plan's administrative star rating is nonnegative then each of the
six sub-scores produced by `score_plan` lies in [0, 10] (the other five
sub-scores are clamped unconditionally; the plan-quality score needs the
nonnegative rating). -/
theorem sub_scores_within_range (client : Client) (plan : Plan)
    (all_plans : List Plan) (_hne : all_plans ≠ [])
    (hrating : 0 ≤ plan.administrative.plan_rating) :
    (0 ≤ (scorePlan client plan all_plans).metrics.provider_network_score ∧
      (scorePlan client plan all_plans).metrics.provider_network_score ≤ 10) ∧
    (0 ≤ (scorePlan client plan all_plans).metrics.medication_coverage_score ∧
      (scorePlan client plan all_plans).metrics.medication_coverage_score ≤ 10) ∧
    (0 ≤ (scorePlan client plan all_plans).metrics.total_cost_score ∧
      (scorePlan client plan all_plans).metrics.total_cost_score ≤ 10) ∧
    (0 ≤ (scorePlan client plan all_plans).metrics.financial_protection_score ∧
      (scorePlan client plan all_plans).metrics.financial_protection_score ≤ 10) ∧
    (0 ≤ (scorePlan client plan all_plans).metrics.administrative_simplicity_score ∧
      (scorePlan client plan all_plans).metrics.administrative_simplicity_score ≤ 10) ∧
    (0 ≤ (scorePlan client plan all_plans).metrics.plan_quality_score ∧
      (scorePlan client plan all_plans).metrics.plan_quality_score ≤ 10) :=
  ⟨scoreProviderNetwork_bounds client plan,
   scoreMedicationCoverage_bounds client plan,
   scoreTotalCost_bounds (calculateAnnualCost client plan) all_plans client,
   scoreFinancialProtection_bounds plan,
   scoreAdministrativeSimplicity_bounds plan,
   scorePlanQuality_bounds plan hrating⟩

/-- Witness for C2 (amended) at the spec scenario plan compared alone. -/
theorem sub_scores_within_range_witness :
    (0 ≤ (scorePlan sampleClient samplePlan [samplePlan]).metrics.provider_network_score ∧
      (scorePlan sampleClient samplePlan [samplePlan]).metrics.provider_network_score ≤ 10) ∧
    (0 ≤ (scorePlan sampleClient samplePlan [samplePlan]).metrics.medication_coverage_score ∧
      (scorePlan sampleClient samplePlan [samplePlan]).metrics.medication_coverage_score ≤ 10) ∧
    (0 ≤ (scorePlan sampleClient samplePlan [samplePlan]).metrics.total_cost_score ∧
      (scorePlan sampleClient samplePlan [samplePlan]).metrics.total_cost_score ≤ 10) ∧
    (0 ≤ (scorePlan sampleClient samplePlan [samplePlan]).metrics.financial_protection_score ∧
      (scorePlan sampleClient samplePlan [samplePlan]).metrics.financial_protection_score ≤ 10) ∧
    (0 ≤ (scorePlan sampleClient samplePlan [samplePlan]).metrics.administrative_simplicity_score ∧
      (scorePlan sampleClient samplePlan [samplePlan]).metrics.administrative_simplicity_score ≤ 10) ∧
    (0 ≤ (scorePlan sampleClient samplePlan [samplePlan]).metrics.plan_quality_score ∧
      (scorePlan sampleClient samplePlan [samplePlan]).metrics.plan_quality_score ≤ 10) :=
  sub_scores_within_range sampleClient samplePlan [samplePlan]
    (List.cons_ne_nil _ _) (by decide)

/-- C3: for every client, comparison set and member plan, the total-cost
sub-score is 10 when every plan in the set has the same estimated annual
cost, and otherwise equals
`10 * (max_cost - this_cost) / (max_cost - min_cost)` over the set's
estimated annual costs; a singleton set always scores 10. -/
theorem total_cost_score_formula (client : Client) (plans : List Plan)
    (plan : Plan) (hmem : plan ∈ plans) :
    ((∀ q ∈ plans, calculateAnnualCost client q = calculateAnnualCost client plan) →
        (scorePlan client plan plans).metrics.total_cost_score = 10) ∧
    ((¬ ∀ q ∈ plans, calculateAnnualCost client q = calculateAnnualCost client plan) →
        (scorePlan client plan plans).metrics.total_cost_score =
          10 * (listMax (plans.map (calculateAnnualCost client)) -
              calculateAnnualCost client plan) /
            (listMax (plans.map (calculateAnnualCost client)) -
              listMin (plans.map (calculateAnnualCost client)))) ∧
    (plans = [plan] →
        (scorePlan client plan plans).metrics.total_cost_score = 10) := by
  have hproj : (scorePlan client plan plans).metrics.total_cost_score =
      scoreTotalCost (calculateAnnualCost client plan) plans client := rfl
  have hmemc : calculateAnnualCost client plan ∈
      plans.map (calculateAnnualCost client) := List.mem_map_of_mem _ hmem
  have hmin_le : listMin (plans.map (calculateAnnualCost client)) ≤
      calculateAnnualCost client plan := listMin_le_of_mem hmemc
  have hle_max : calculateAnnualCost client plan ≤
      listMax (plans.map (calculateAnnualCost client)) := le_listMax_of_mem hmemc
  have hlne : plans.map (calculateAnnualCost client) ≠ [] := by
    intro h
    rw [List.map_eq_nil_iff.mp h] at hmem
    cases hmem
  have h1 : (∀ q ∈ plans, calculateAnnualCost client q = calculateAnnualCost client plan) →
      (scorePlan client plan plans).metrics.total_cost_score = 10 := by
    intro hall
    have hally : ∀ y ∈ plans.map (calculateAnnualCost client),
        y = calculateAnnualCost client plan := by
      intro y hy
      rcases List.mem_map.mp hy with ⟨q, hq, rfl⟩
      exact hall q hq
    have hminq := listMin_all_eq hlne hally
    have hmaxq := listMax_all_eq hlne hally
    rw [hproj]
    unfold scoreTotalCost
    dsimp only
    rw [if_pos (by rw [hminq, hmaxq])]
  have h2 : (¬ ∀ q ∈ plans, calculateAnnualCost client q = calculateAnnualCost client plan) →
      (scorePlan client plan plans).metrics.total_cost_score =
        10 * (listMax (plans.map (calculateAnnualCost client)) -
            calculateAnnualCost client plan) /
          (listMax (plans.map (calculateAnnualCost client)) -
            listMin (plans.map (calculateAnnualCost client))) := by
    intro hnall
    have hmaxne : listMax (plans.map (calculateAnnualCost client)) ≠
        listMin (plans.map (calculateAnnualCost client)) := by
      intro heq
      apply hnall
      intro q hq
      have hqm : calculateAnnualCost client q ∈
          plans.map (calculateAnnualCost client) := List.mem_map_of_mem _ hq
      have hq1 := listMin_le_of_mem hqm
      have hq2 := le_listMax_of_mem hqm
      have hp1 := hmin_le
      have hp2 := hle_max
      rw [heq] at hq2 hp2
      linarith
    have hlt : listMin (plans.map (calculateAnnualCost client)) <
        listMax (plans.map (calculateAnnualCost client)) :=
      lt_of_le_of_ne (le_trans hmin_le hle_max) (fun h => hmaxne h.symm)
    rw [hproj]
    unfold scoreTotalCost
    dsimp only
    rw [if_neg hmaxne]
    have hE0 : 0 ≤ 10 * (listMax (plans.map (calculateAnnualCost client)) -
        calculateAnnualCost client plan) /
          (listMax (plans.map (calculateAnnualCost client)) -
            listMin (plans.map (calculateAnnualCost client))) :=
      div_nonneg (mul_nonneg (by norm_num) (by linarith)) (by linarith)
    have hE10 : 10 * (listMax (plans.map (calculateAnnualCost client)) -
        calculateAnnualCost client plan) /
          (listMax (plans.map (calculateAnnualCost client)) -
            listMin (plans.map (calculateAnnualCost client))) ≤ 10 := by
      rw [mul_div_assoc]
      have hq1 : (listMax (plans.map (calculateAnnualCost client)) -
          calculateAnnualCost client plan) /
            (listMax (plans.map (calculateAnnualCost client)) -
              listMin (plans.map (calculateAnnualCost client))) ≤ 1 :=
        (div_le_one (by linarith)).mpr (by linarith)
      nlinarith
    rw [min_eq_right hE10, max_eq_right hE0]
  refine ⟨h1, h2, fun hs => h1 ?_⟩
  subst hs
  intro q hq
  rcases List.mem_singleton.mp hq with rfl
  rfl

/-- Witness for C3: the spec scenario plan compared alone scores 10 on
total cost. -/
theorem total_cost_score_formula_witness :
    (scorePlan sampleClient samplePlan [samplePlan]).metrics.total_cost_score = 10 :=
  (total_cost_score_formula sampleClient [samplePlan] samplePlan
    (List.mem_singleton_self _)).2.2 rfl

/-- C4: for every client and plan, the code's estimated annual cost
(`_calculate_annual_cost`) equals the specification's formula
`min(annual_premium + deductible + visit_costs + medication_costs + 1000,
oop_max + annual_premium)` with the per-provider and per-medication sums
as the specification words them. -/
theorem annual_cost_matches_spec (client : Client) (plan : Plan) :
    calculateAnnualCost client plan = annualCostSpec client plan := by
  unfold calculateAnnualCost annualCostSpec visitCosts medicationCosts
  have hv : providerVisitCost plan = fun pr : Provider =>
      if primaryCareSpecialties.contains (strLower pr.specialty) then
        (pr.visit_frequency : ℚ) * plan.cost_sharing.primary_care_copay
      else
        (pr.visit_frequency : ℚ) * plan.cost_sharing.specialist_copay := by
    funext pr; rfl
  have hm : medicationCost plan = fun m : Medication =>
      if programExists m then (m.annual_doses : ℚ) * programCopay m
      else
        match lookupD plan.formulary m.name CoverageStatus.NOT_COVERED with
        | .TIER1 => (m.annual_doses : ℚ) * 10
        | .TIER2 => (m.annual_doses : ℚ) * 50
        | .TIER3 => (m.annual_doses : ℚ) * 100
        | .TIER4 => (m.annual_doses : ℚ) * 300
        | _ => (m.annual_doses : ℚ) * 500 := by
    funext m; exact medicationCost_eq plan m
  rw [foldl_add_map, foldl_add_map, hv, hm]
  simp only [zero_add]

/-- C5: for every client and plan, the code's provider-network metric
(`_score_provider_network`) equals the specification's step function of
the in-network fraction of must-keep providers, with the flat referral
penalty floored at 0. -/
theorem provider_network_matches_spec (client : Client) (plan : Plan) :
    scoreProviderNetwork client plan = providerNetworkScoreSpec client plan := by
  unfold scoreProviderNetwork providerNetworkBase providerNetworkScoreSpec
  simp only [List.countP_eq_length_filter]

/-! #### Stability of the analysis engine's sort -/

theorem filter_orderedInsert_score (v : ℚ) (x : PlanAnalysis)
    (l : List PlanAnalysis) :
    (l.orderedInsert scoreGE x).filter
        (fun y => decide (y.metrics.weighted_total_score = v)) =
      if x.metrics.weighted_total_score = v then
        x :: l.filter (fun y => decide (y.metrics.weighted_total_score = v))
      else l.filter (fun y => decide (y.metrics.weighted_total_score = v)) := by
  induction l with
  | nil =>
      simp only [List.orderedInsert, List.filter]
      split_ifs with h <;> simp [h]
  | cons b l ih =>
      simp only [List.orderedInsert]
      by_cases hb : scoreGE x b
      · rw [if_pos hb]
        by_cases hx : x.metrics.weighted_total_score = v <;>
          simp [List.filter_cons, hx]
      · rw [if_neg hb]
        have hkb : ¬ b.metrics.weighted_total_score ≤
            x.metrics.weighted_total_score := hb
        by_cases hx : x.metrics.weighted_total_score = v
        · have hbv : b.metrics.weighted_total_score ≠ v := by
            intro hbv
            exact hkb (le_of_eq (hbv.trans hx.symm))
          simp [List.filter_cons, hbv, ih, hx]
        · simp [List.filter_cons, ih, hx]

theorem filter_insertionSort_score (v : ℚ) (l : List PlanAnalysis) :
    (l.insertionSort scoreGE).filter
        (fun y => decide (y.metrics.weighted_total_score = v)) =
      l.filter (fun y => decide (y.metrics.weighted_total_score = v)) := by
  induction l with
  | nil => rfl
  | cons b l ih =>
      simp only [List.insertionSort]
      rw [filter_orderedInsert_score]
      by_cases hb : b.metrics.weighted_total_score = v <;>
        simp [List.filter_cons, hb, ih]

/-- C6: whenever `analyze_plans` returns a report, its `plan_analyses` is a
permutation of the scored input plans sorted non-increasing by
`weighted_total_score`, ties preserve the original order of the scored
input (the filter at any score value `v` is unchanged), and
`top_recommendations` is the first 3 entries of `plan_analyses`. -/
theorem analyze_plans_sorted_stable_top3 (client : Client)
    (plans : List Plan) (v : ℚ) (r : AnalysisReport)
    (hr : analyzePlans client plans = .ok r) :
    List.Sorted scoreGE r.plan_analyses ∧
    r.top_recommendations = r.plan_analyses.take 3 ∧
    r.plan_analyses.Perm (plans.map (fun p => scorePlan client p plans)) ∧
    r.plan_analyses.filter
        (fun a => decide (a.metrics.weighted_total_score = v)) =
      (plans.map (fun p => scorePlan client p plans)).filter
        (fun a => decide (a.metrics.weighted_total_score = v)) := by
  unfold analyzePlans at hr
  by_cases hp : plans.isEmpty
  · rw [if_pos hp] at hr
    cases hr
  · rw [if_neg hp] at hr
    injection hr with h
    subst h
    refine ⟨List.sorted_insertionSort scoreGE _, rfl,
      List.perm_insertionSort scoreGE _, filter_insertionSort_score v _⟩

/-- The report `analyze_plans` produces on the two sample plans. -/
def sampleReport : AnalysisReport :=
  let pa := ([samplePlan, samplePlanB].map
    (fun p => scorePlan sampleClient p [samplePlan, samplePlanB])).insertionSort
      scoreGE
  { client := sampleClient, plan_analyses := pa,
    top_recommendations := pa.take 3 }

/-- Witness for C6 on a concrete two-plan analysis. -/
theorem analyze_plans_sorted_stable_top3_witness :
    List.Sorted scoreGE sampleReport.plan_analyses ∧
    sampleReport.top_recommendations = sampleReport.plan_analyses.take 3 ∧
    sampleReport.plan_analyses.Perm
      ([samplePlan, samplePlanB].map
        (fun p => scorePlan sampleClient p [samplePlan, samplePlanB])) ∧
    sampleReport.plan_analyses.filter
        (fun a => decide (a.metrics.weighted_total_score = 44/5)) =
      ([samplePlan, samplePlanB].map
        (fun p => scorePlan sampleClient p [samplePlan, samplePlanB])).filter
        (fun a => decide (a.metrics.weighted_total_score = 44/5)) :=
  analyze_plans_sorted_stable_top3 sampleClient [samplePlan, samplePlanB]
    (44/5) sampleReport rfl

/-- C7: `analyze_plans` fails with the explicit empty-input `ValueError`
exactly on an empty plan list, and returns a report on every non-empty
list. -/
theorem analyze_plans_error_iff_empty (client : Client) (plans : List Plan) :
    (plans = [] →
      analyzePlans client plans = .error "No plans provided for analysis") ∧
    (plans ≠ [] → ∃ r, analyzePlans client plans = .ok r) := by
  constructor
  · rintro rfl
    rfl
  · intro h
    match plans, h with
    | p :: ps, _ => exact ⟨_, rfl⟩

/-- Witness for C7: the empty list produces the empty-input error. -/
theorem analyze_plans_error_iff_empty_witness :
    analyzePlans sampleClient [] = .error "No plans provided for analysis" :=
  (analyze_plans_error_iff_empty sampleClient []).1 rfl

/-! #### JSON export round trip -/

theorem metalValue_roundtrip (ml : MetalLevel) :
    metalFromString (strLower (metalValue ml)) = ml := by
  cases ml <;> rfl

/-- C8 counterexample: a plan whose legacy `deductible_individual` and
`oop_max_individual` fields are `None` — as every plan built by the JSON
or CSV ingestion path is — exports those keys as JSON `null`, and
re-parsing the export object fails in `float(None)`, yielding no Plan at
all (let alone one with equal fields). -/
theorem json_roundtrip_counterexample :
    jsonToPlan (exportPlanJson roundTripCexPlan) = none ∧
    roundTripCexPlan.deductible_individual = none ∧
    roundTripCexPlan.deductible = 1500 := by
  refine ⟨rfl, rfl, rfl⟩

/-- C8 (amended): for every Plan whose legacy individual fields are
populated and agree with the unified deductible and out-of-pocket fields
(the shape the text-extraction constructor produces), serializing to the
JSON export schema and re-parsing through the JSON path yields a Plan
with equal monthly premium, deductible, out-of-pocket maximum, metal
level and plan identifier. -/
theorem json_roundtrip_legacy_fields (p : Plan) (d m : ℚ)
    (hd : p.deductible_individual = some d) (hdd : p.deductible = d)
    (hm : p.oop_max_individual = some m) (hmo : p.oop_max = m) :
    ∃ q, jsonToPlan (exportPlanJson p) = some q ∧
      q.monthly_premium = p.monthly_premium ∧
      q.deductible = p.deductible ∧
      q.oop_max = p.oop_max ∧
      q.metal_level = p.metal_level ∧
      q.plan_id = p.plan_id := by
  refine ⟨mkPlan
    { plan_id := p.plan_id
      issuer := p.issuer
      marketing_name := p.marketing_name
      metal_level := metalFromString (strLower (metalValue p.metal_level))
      plan_type := .PPO
      monthly_premium := p.monthly_premium
      deductible := d
      oop_max := m
      coinsurance := 1/5
      cost_sharing := costSharingFromDict {}
      administrative := administrativeFromDict {} }, ?_, rfl, ?_, ?_,
      metalValue_roundtrip p.metal_level, rfl⟩
  · unfold jsonToPlan exportPlanJson jsonNum2 jsonNum
    rw [hd, hm]
    rfl
  · exact hdd.symm
  · exact hmo.symm

/-- Witness for C8 (amended) at a concrete legacy-field plan. -/
theorem json_roundtrip_legacy_fields_witness :
    ∃ q, jsonToPlan (exportPlanJson samplePlanLegacy) = some q ∧
      q.monthly_premium = samplePlanLegacy.monthly_premium ∧
      q.deductible = samplePlanLegacy.deductible ∧
      q.oop_max = samplePlanLegacy.oop_max ∧
      q.metal_level = samplePlanLegacy.metal_level ∧
      q.plan_id = samplePlanLegacy.plan_id :=
  json_roundtrip_legacy_fields samplePlanLegacy 2000 6000 rfl rfl rfl rfl

/-! #### Administrative-flag extraction from text -/

/-- C9 (code bug): on text matching the `referral ... required/needed`
pattern and not containing `prior auth`, the produced plan's
`requires_referrals` flag stays false while `prior_auth_common` is set —
`_extract_administrative_details` sets `prior_auth_common` for BOTH
patterns and never sets a referral flag, contradicting its own
`Check for referral requirements` comment. -/
theorem referral_pattern_sets_wrong_flag :
    (extractPlanFromText "P1" "Acme" "Acme Text" .GOLD 100 500 4000 {}
        referralText).requires_referrals = false ∧
    (extractPlanFromText "P1" "Acme" "Acme Text" .GOLD 100 500 4000 {}
        referralText).administrative.prior_auth_common = true ∧
    hasSub "prior auth".data (referralText.data.map Char.toLower) = false := by
  refine ⟨rfl, rfl, rfl⟩

/-! #### The annual cost never reads the top-level copay fields -/

theorem visitCosts_zero (client : Client) (p : Plan)
    (h : p.cost_sharing = {}) : visitCosts client p = 0 := by
  have hz : ∀ pr : Provider, providerVisitCost p pr = 0 := by
    intro pr
    unfold providerVisitCost
    rw [h]
    split_ifs <;> simp [CostSharing.primary_care_copay,
      CostSharing.specialist_copay]
  unfold visitCosts
  rw [foldl_add_map, zero_add]
  exact List.sum_eq_zero (by simp [hz])

theorem csvRowToPlan_cost_sharing {row : CsvRow} {p : Plan}
    (h : csvRowToPlan row = some p) : p.cost_sharing = {} := by
  unfold csvRowToPlan at h
  simp only [bind, Option.bind_eq_some, Option.some.injEq, pure] at h
  obtain ⟨d, -, o, -, mp, -, cp, -, cs, -, ce, -, ci, -, qr, -, cr, -, pt, -, hp⟩ := h
  rw [← hp, mkPlan_cost_sharing]

/-- C10: the annual-cost computation reads visit copays only from the
plan's `cost_sharing` sub-record, never from the top-level
`copay_primary` / `copay_specialist` fields: two plans differing only in
those fields have equal estimated annual cost for every client; and every
plan built by the CSV path keeps the default all-zero `cost_sharing`, so
its visit costs are zero for every client even when the CSV supplies
copay columns. -/
theorem annual_cost_ignores_toplevel_copays :
    (∀ (client : Client) (p : Plan) (x y : ℚ),
        calculateAnnualCost client
            { p with copay_primary := x, copay_specialist := y } =
          calculateAnnualCost client p) ∧
    (∀ (row : CsvRow) (p : Plan) (client : Client),
        csvRowToPlan row = some p →
          p.cost_sharing = {} ∧ visitCosts client p = 0) := by
  constructor
  · intro client p x y
    rfl
  · intro row p client h
    have hcs := csvRowToPlan_cost_sharing h
    exact ⟨hcs, visitCosts_zero client p hcs⟩

/-- Witness for C10 at a concrete CSV row that supplies copay columns. -/
theorem annual_cost_ignores_toplevel_copays_witness :
    sampleCsvPlan.cost_sharing = {} ∧
    visitCosts sampleClient sampleCsvPlan = 0 :=
  annual_cost_ignores_toplevel_copays.2 sampleCsvRow sampleCsvPlan
    sampleClient (by rfl)

end HPN
